import Mathlib

/-!
# Verification of the minecraftviewer geometry pipeline

A shallow embedding of the two viewer sources, `src/app.js` and
`src/minecraftviewer/app.js`, together with proofs about the geometry
interpreter (per-cube box building, UV-atlas rectangles, pivot/rotation
grouping), the bounding-box normalization and the camera framing.

Modelling conventions:
* JavaScript numbers are IEEE doubles; the embedding uses exact rational
  arithmetic, the standard idealization (every statement below is about the
  exact values the arithmetic denotes).
* `JsVal := Option Json` models a JavaScript expression result: `none` is
  `undefined`, `some j` a JSON value.
* `JNum := Option ℚ` models the result of a numeric expression: `some q` is
  the finite number `q`; `none` marks every non-finite or non-numeric
  outcome (NaN from an undefined operand, coercions of strings / arrays /
  objects / null / booleans, and the infinite results of division by zero).
  All theorems below constrain inputs to the `some` path, where the model
  agrees with JavaScript exactly; `none` is absorbing.
-/

/-- A JSON value as produced by `JSON.parse`. -/
inductive Json where
  | null
  | bool (b : Bool)
  | num  (q : ℚ)
  | str  (s : String)
  | arr  (elems : List Json)
  | obj  (fields : List (String × Json))

/-- The result of a JavaScript expression: `none` is `undefined`. -/
abbrev JsVal := Option Json

/-- JavaScript `ToBoolean` (truthiness) of a JSON value.  Parsed JSON numbers
are always finite, so the NaN-is-falsy case does not arise here. -/
def Json.truthy : Json → Bool
  | .null => false
  | .bool b => b
  | .num q => decide (q ≠ 0)
  | .str s => decide (s ≠ "")
  | .arr _ => true
  | .obj _ => true

/-- Truthiness of an expression result: `undefined` is falsy. -/
def jsTruthy : JsVal → Bool
  | none => false
  | some j => j.truthy

/-- Field lookup in an object, last binding wins: `JSON.parse` resolves
duplicate keys to the last occurrence. -/
def jlookup (fs : List (String × Json)) (k : String) : Option Json :=
  fs.foldl (fun acc p => if p.1 = k then some p.2 else acc) none

/-- Property read `x.k` for a value already known to be neither `null` nor
`undefined` (every call site below reads a second property of a value whose
first read succeeded, or a property of a value known truthy).  Non-object
values have no own properties read by this program (no built-in such as
`length` is ever read on them), so they yield `undefined`. -/
def Json.get : Json → String → JsVal
  | .obj fs, k => jlookup fs k
  | _, _ => none

/-- Property read `x.k` where `x` may be `undefined` or `null`, in which case
JavaScript throws a TypeError that aborts the load. -/
def jsMemberE (v : JsVal) (k : String) : Except String JsVal :=
  match v, k with
  | none, _ => .error "TypeError: cannot read properties of undefined"
  | some .null, _ => .error "TypeError: cannot read properties of null"
  | some j, k => .ok (j.get k)

/-- Index read `x[i]`, throwing on `undefined`/`null`.  Arrays index their
elements; a string indexes its characters (a one-character string results); an
object reads the property named by the decimal numeral; numbers and booleans
yield `undefined`. -/
def jsIndexE (v : JsVal) (i : Nat) : Except String JsVal :=
  match v with
  | none => .error "TypeError: cannot read properties of undefined"
  | some .null => .error "TypeError: cannot read properties of null"
  | some (.arr xs) => .ok (xs.get? i)
  | some (.str s) => .ok ((s.toList.get? i).map (fun c => .str c.toString))
  | some (.obj fs) => .ok (jlookup fs (toString i))
  | some (.num _) => .ok none
  | some (.bool _) => .ok none

/-- Index read `x[i]` at call sites where `x` is known truthy (hence neither
`null` nor `undefined`). -/
def Json.idx : Json → Nat → JsVal
  | .arr xs, i => xs.get? i
  | .str s, i => (s.toList.get? i).map (fun c => .str c.toString)
  | .obj fs, i => jlookup fs (toString i)
  | _, _ => none

/-- JavaScript `a || b` where `a` is an expression result and `b` a literal default:
JavaScript returns the left value when truthy, otherwise the right. -/
def jsOrJ (v : JsVal) (dflt : Json) : Json :=
  match v with
  | some j => if j.truthy then j else dflt
  | none => dflt

/-- The numeric value of a JSON value, see the `JNum` convention above. -/
abbrev JNum := Option ℚ

/-- Numeric coercion of a JSON value: only finite numbers convert; the JS
coercions of other values (e.g. `null + 1 = 1`, string concatenation) are
outside the modelled domain and map to the absorbing `none`. -/
def Json.toNum : Json → JNum
  | .num q => some q
  | _ => none

/-- Numeric coercion of an expression result (`undefined` coerces to NaN). -/
def jnOf : JsVal → JNum
  | some j => j.toNum
  | none => none

def jnAdd : JNum → JNum → JNum
  | some a, some b => some (a + b)
  | _, _ => none

def jnSub : JNum → JNum → JNum
  | some a, some b => some (a - b)
  | _, _ => none

def jnMul : JNum → JNum → JNum
  | some a, some b => some (a * b)
  | _, _ => none

/-- Division; a zero divisor yields the non-finite marker (JavaScript produces
±Infinity or NaN there).  Every division in the program divides by a texture
dimension already known nonzero, or by the literal 2. -/
def jnDiv : JNum → JNum → JNum
  | some a, some b => if b = 0 then none else some (a / b)
  | _, _ => none

/-- Iteration `for (x of v)`: arrays iterate their elements, strings their characters,
anything else throws a TypeError (not iterable).  Call sites pass a value that
is truthy or the literal `[]`. -/
def jsIterate (v : Json) : Except String (List Json) :=
  match v with
  | .arr xs => .ok xs
  | .str s => .ok (s.toList.map (fun c => .str c.toString))
  | _ => .error "TypeError: not iterable"

/-- JavaScript `SameValueZero` on values read from a freshly parsed document:
primitives compare by value; arrays and objects compare by reference identity,
and two values read from distinct places of a parse result are never the same
reference, so they never collide as Map keys. -/
def jsSameKey : JsVal → JsVal → Bool
  | none, none => true
  | some .null, some .null => true
  | some (.bool a), some (.bool b) => a == b
  | some (.num a), some (.num b) => decide (a = b)
  | some (.str a), some (.str b) => a == b
  | _, _ => false

/-- JavaScript `Map.set`: an existing key keeps its position and gets the new value,
a new key is appended; `Map` iteration is in this insertion order. -/
def mapSet (m : List (JsVal × Json)) (k : JsVal) (v : Json) : List (JsVal × Json) :=
  if m.any (fun p => jsSameKey p.1 k) then
    m.map (fun p => if jsSameKey p.1 k then (p.1, v) else p)
  else m ++ [(k, v)]

/-- An engine angle, stored exactly as its rational multiple of π:
`THREE.MathUtils.degToRad d = d·π/180` radians.  A `none` multiple is a NaN
angle. -/
structure Angle where
  piMul : JNum

/-- The conversion `THREE.MathUtils.degToRad`: degrees to radians, i.e. `d·π/180`, recorded
as the exact multiple `d/180` of π. -/
def degToRad (d : JNum) : Angle :=
  ⟨jnMul d (some (1 / 180))⟩

/-- A `THREE.Euler` value: three angles and an application-order tag.  The
order is never changed by this program and keeps the engine default `XYZ`
(intrinsic rotations about X, then Y, then Z). -/
structure EulerRot where
  x : Angle
  y : Angle
  z : Angle
  order : String

/-- A fresh `Object3D`'s rotation: zero angles, default order. -/
def eulerZero : EulerRot :=
  ⟨⟨some 0⟩, ⟨some 0⟩, ⟨some 0⟩, "XYZ"⟩

/-- A 3-component numeric vector (a `THREE.Vector3` value). -/
abbrev Vec3 := JNum × JNum × JNum

/-- Where a cube's mesh ends up: either placed directly at its world center,
or wrapped in a transform group positioned at the pivot, carrying the group's
rotation and the mesh's local position inside the group. -/
inductive Placement where
  | direct (pos : Vec3)
  | grouped (pivot : Vec3) (rot : EulerRot) (meshLocal : Vec3)

/-- The UV quad of one `BoxGeometry` face: the four vertices in buffer order
(1,1), (0,1), (0,0), (1,0), each as a (U, V) pair. -/
structure FaceQuad where
  v11 : JNum × JNum
  v01 : JNum × JNum
  v00 : JNum × JNum
  v10 : JNum × JNum

/-- UV quads for the six box faces, in `BoxGeometry` face order
+X, −X, +Y, −Y, +Z, −Z (buffer face indices 0 to 5). -/
structure CubeUVs where
  posX : FaceQuad
  negX : FaceQuad
  posY : FaceQuad
  negY : FaceQuad
  posZ : FaceQuad
  negZ : FaceQuad

/-- An axis-aligned bounding box as computed on the engine side by
`THREE.Box3.setFromObject` over the realized primitives. -/
structure Box3 where
  minX : ℚ
  minY : ℚ
  minZ : ℚ
  maxX : ℚ
  maxY : ℚ
  maxZ : ℚ

/-- Emptiness test `THREE.Box3.isEmpty`: some max component is below its min component (the
state produced by aggregating zero primitives). -/
def Box3.isEmpty (b : Box3) : Bool :=
  decide (b.maxX < b.minX) || decide (b.maxY < b.minY) || decide (b.maxZ < b.minZ)

/-- The expression `x || 0` followed by numeric coercion, as in `degToRad(r[i] || 0)`
(both sources): a falsy component (absent, or the number 0, which coerces to 0
anyway) is replaced by 0 before conversion. -/
def jsNumOrZero (v : JsVal) : JNum :=
  if jsTruthy v then jnOf v else some 0

/-- Lines 117–124 of both sources: build the bone map keyed by `b.name`.  The
per-bone `Object3D` and its pivot position are never read by the simple
builder, so only the bone definition is recorded.  Reading `b.name` (line 119,
`obj.name = b.name`) throws iff the bone entry is `null`. -/
def buildBoneMap (acc : List (JsVal × Json)) :
    List Json → Except String (List (JsVal × Json))
  | [] => .ok acc
  | b :: rest =>
    match b with
    | .null => .error "TypeError: cannot read properties of null"
    | bb => buildBoneMap (mapSet acc (bb.get "name") bb) rest

/-- Lines 107–124, textually identical in the two sources: resolve the first
geometry entry (`geoJson['minecraft:geometry'][0]`, lines 108–109; either
index step throws when it hits `undefined` or `null`), resolve the texture
dimensions with their `|| 64` defaults (lines 110–111), and build the bone
map (lines 114–124).  Lines 127–134 (bone parent attachment) build an
`Object3D` graph that is never added under the model root nor read again; it
has no observable effect and is not modelled. -/
def modelSetup (geoJson : Json) : Except String (Json × Json × List (JsVal × Json)) := do
  let geoField ← jsMemberE (some geoJson) "minecraft:geometry"
  let geom ← jsIndexE geoField 0
  match geom with
  | none => .error "TypeError: cannot read properties of undefined"
  | some .null => .error "TypeError: cannot read properties of null"
  | some g =>
    let desc := jsOrJ (g.get "description") (.obj [])
    let texW := jsOrJ (desc.get "texture_width") (.num 64)
    let texH := jsOrJ (desc.get "texture_height") (.num 64)
    let boneList ← jsIterate (jsOrJ (g.get "bones") (.arr []))
    let bonesMap ← buildBoneMap [] boneList
    pure (texW, texH, bonesMap)

/-- Delete every binding of a key from an object's field list (used only to
state that a cube behaves as if a field were absent). -/
def removeField (fs : List (String × Json)) (k : String) : List (String × Json) :=
  fs.filter (fun p => decide (p.1 ≠ k))

/-- The root transform and camera framing parameters produced by the
normalization block (`loadModel` lines 231–259). -/
structure FrameResult where
  translation : ℚ × ℚ × ℚ
  scale : ℚ
  target : ℚ × ℚ × ℚ
  dist : ℚ
  cameraPos : ℚ × ℚ × ℚ
  near : ℚ
  far : ℚ

/-! ## The `src/minecraftviewer/app.js` build (per-face UV mapping present) -/

namespace MV

/-- One box descriptor produced by the cube loop of `loadModel`
(`src/minecraftviewer/app.js` lines 142–223): the `BoxGeometry` size
arguments, the computed world center, the placement (lines 209–223), and the
geometry's face UVs — `none` means the default (unmapped) `BoxGeometry` UVs. -/
structure BoxDescriptor where
  size : Vec3
  center : Vec3
  placement : Placement
  faceUVs : Option CubeUVs

/-- The helper `setFaceUV` (lines 153–175): the quad written for one face.  `texW`/`texH`
are the closure-captured resolved texture dimensions; `mirror` is the
truthiness of the raw `cube.mirror` argument (the JS conditional
`mirror ? u1 : u0` applies exactly that coercion; an absent `mirror` defaults
to `false`, which is also falsy). -/
def setFaceUV (texW texH : Json) (ux uy uw uh : JNum) (mirror : Bool) : FaceQuad :=
  let u0 := jnDiv ux texW.toNum
  let u1 := jnDiv (jnAdd ux uw) texW.toNum
  let vTop := jnSub (some 1) (jnDiv uy texH.toNum)
  let vBottom := jnSub (some 1) (jnDiv (jnAdd uy uh) texH.toNum)
  let iu0 := if mirror then u1 else u0
  let iu1 := if mirror then u0 else u1
  { v11 := (iu1, vTop), v01 := (iu0, vTop), v00 := (iu0, vBottom), v10 := (iu1, vBottom) }

/-- Lines 177–199: the six face rectangles of the Bedrock cube net, passed to
`setFaceUV` in `BoxGeometry` face order (additions associate to the left as in
the source). -/
def computeCubeUVs (texW texH : Json) (u v w h d : JNum) (mirror : Bool) : CubeUVs :=
  { posX := setFaceUV texW texH (jnAdd (jnAdd u d) w) (jnAdd v d) d h mirror
    negX := setFaceUV texW texH u (jnAdd v d) d h mirror
    posY := setFaceUV texW texH (jnAdd u d) v w d mirror
    negY := setFaceUV texW texH (jnAdd (jnAdd u d) w) v w d mirror
    posZ := setFaceUV texW texH (jnAdd u d) (jnAdd v d) w h mirror
    negZ := setFaceUV texW texH (jnAdd (jnAdd (jnAdd u d) w) d) (jnAdd v d) w h mirror }

/-- The body of the cube loop (lines 144–223) for a cube whose first property
read succeeded (`cube` is not `null`); total, it cannot throw.

The six `setFaceUV` calls sit in `try`/`catch` (lines 187–203).  No expression
inside them can throw for a real `BoxGeometry` — the only conceivable failure
is the engine-side buffer write — so the attempt is abstracted as one fallible
engine step `attempt`, and the `catch` branch keeps the default (unmapped)
UVs.  (A JS exception part-way through the six writes would leave the earlier
faces written; since no write can actually fail, the atomic model agrees with
the source on every reachable path.)  The source program instantiates
`attempt` with the always-succeeding pure write, see `processCube`. -/
def buildCube (texW texH : Json) (attempt : CubeUVs → Except String CubeUVs)
    (cube : Json) : BoxDescriptor :=
  let origin := jsOrJ (cube.get "origin") (.arr [.num 0, .num 0, .num 0])
  let size := jsOrJ (cube.get "size") (.arr [.num 1, .num 1, .num 1])
  let sx := jnOf (size.idx 0)
  let sy := jnOf (size.idx 1)
  let sz := jnOf (size.idx 2)
  let faceUVs : Option CubeUVs :=
    match cube.get "uv" with
    | some (.arr uvs) =>
      if uvs.length = 2 then
        let uvOrigin := Json.arr uvs
        let u := jnOf (uvOrigin.idx 0)
        let v := jnOf (uvOrigin.idx 1)
        let mir := jsTruthy (cube.get "mirror")
        match attempt (computeCubeUVs texW texH u v sx sy sz mir) with
        | .ok written => some written
        | .error _ => none
      else none
    | _ => none
  let center : Vec3 :=
    (jnAdd (jnOf (origin.idx 0)) (jnDiv sx (some 2)),
     jnAdd (jnOf (origin.idx 1)) (jnDiv sy (some 2)),
     jnAdd (jnOf (origin.idx 2)) (jnDiv sz (some 2)))
  let pivotV := cube.get "pivot"
  let rotV := cube.get "rotation"
  let placement :=
    if jsTruthy pivotV || jsTruthy rotV then
      let cPivot := jsOrJ pivotV (.arr [.num 0, .num 0, .num 0])
      let px := jnOf (cPivot.idx 0)
      let py := jnOf (cPivot.idx 1)
      let pz := jnOf (cPivot.idx 2)
      let rot :=
        match rotV with
        | some r =>
          if r.truthy then
            { x := degToRad (jsNumOrZero (r.idx 0))
              y := degToRad (jsNumOrZero (r.idx 1))
              z := degToRad (jsNumOrZero (r.idx 2))
              order := "XYZ" }
          else eulerZero
        | none => eulerZero
      Placement.grouped (px, py, pz) rot
        (jnSub center.1 px, jnSub center.2.1 py, jnSub center.2.2 pz)
    else Placement.direct center
  { size := (sx, sy, sz), center := center, placement := placement, faceUVs := faceUVs }

/-- One iteration of the cube loop: the first property read `cube.origin`
(line 144) throws iff the element is `null`; every later step is total. -/
def processCubeWith (texW texH : Json) (attempt : CubeUVs → Except String CubeUVs)
    (cube : Json) : Except String BoxDescriptor :=
  match cube with
  | .null => .error "TypeError: cannot read properties of null"
  | c => .ok (buildCube texW texH attempt c)

/-- The cube loop body as executed by the source: the buffer write of the six
face quads always succeeds. -/
def processCube (texW texH : Json) (cube : Json) : Except String BoxDescriptor :=
  processCubeWith texW texH (fun u => .ok u) cube

/-- Loop `for (const cube of b.cubes)`: process the cubes of one bone in order. -/
def processCubes (texW texH : Json) (attempt : CubeUVs → Except String CubeUVs) :
    List Json → Except String (List BoxDescriptor)
  | [] => .ok []
  | c :: rest => do
    let d ← processCubeWith texW texH attempt c
    let ds ← processCubes texW texH attempt rest
    pure (d :: ds)

/-- Lines 139–225: traverse the bone map in insertion order; bones whose
`cubes` field is falsy are skipped (`if (!b.cubes) continue`), otherwise
`b.cubes` is iterated (throwing if it is truthy but not iterable). -/
def cubesOfBones (texW texH : Json) (attempt : CubeUVs → Except String CubeUVs) :
    List (JsVal × Json) → Except String (List BoxDescriptor)
  | [] => .ok []
  | entry :: rest =>
    match entry.2.get "cubes" with
    | some cubesV =>
      if cubesV.truthy then do
        let cubes ← jsIterate cubesV
        let ds ← processCubes texW texH attempt cubes
        let later ← cubesOfBones texW texH attempt rest
        pure (ds ++ later)
      else cubesOfBones texW texH attempt rest
    | none => cubesOfBones texW texH attempt rest

/-- The geometry-interpreting part of `loadModel` (lines 107–225), from the
parsed model JSON to the list of box descriptors.  An `error` result models a
thrown TypeError: the async function rejects, nothing after the throwing line
runs, and no box is produced. -/
def interpretWith (attempt : CubeUVs → Except String CubeUVs) (geoJson : Json) :
    Except String (List BoxDescriptor) := do
  let setup ← modelSetup geoJson
  cubesOfBones setup.1 setup.2.1 attempt setup.2.2

/-- The geometry interpreter as executed by the source. -/
def interpret (geoJson : Json) : Except String (List BoxDescriptor) :=
  interpretWith (fun u => .ok u) geoJson

/-- Lines 231–263: bounding-box normalization and camera framing.  The box is
the engine-computed `Box3.setFromObject` aggregate.  A `some` result carries
the transform applied to the model root and the camera parameters; `none`
models the empty-box fallback (line 260): the root is added to the scene
as-is, with no translation or scaling and no camera change. -/
def normalizeAndFrame (box : Box3) : Option FrameResult :=
  if box.isEmpty then none
  else
    let sizeX := box.maxX - box.minX
    let sizeY := box.maxY - box.minY
    let sizeZ := box.maxZ - box.minZ
    let cX := (box.minX + box.maxX) / 2
    let cY := (box.minY + box.maxY) / 2
    let cZ := (box.minZ + box.maxZ) / 2
    let maxDim := max sizeX (max sizeY sizeZ)
    let scale := if maxDim > 0 then 60 / maxDim else 1
    let dist := 2 * max sizeX (max sizeY sizeZ)
    some { translation := (0 - cX, 0 - cY, 0 - cZ)
           scale := scale
           target := (0, 0, 0)
           dist := dist
           cameraPos := (dist * 0.8, dist * 0.6, dist * 1.2)
           near := 0.1
           far := dist * 10 + 100 }

end MV

/-! ## The `src/app.js` build (no per-face UV mapping) -/

namespace Plain

/-- One box descriptor produced by the cube loop of `loadModel`
(`src/app.js` lines 142–166): the `BoxGeometry` size arguments, the computed
world center and the placement.  This build never touches the geometry's UV
attribute. -/
structure BoxDescriptor where
  size : Vec3
  center : Vec3
  placement : Placement

/-- The body of the cube loop (lines 144–165) for a cube whose first property
read succeeded. -/
def buildCube (cube : Json) : BoxDescriptor :=
  let origin := jsOrJ (cube.get "origin") (.arr [.num 0, .num 0, .num 0])
  let size := jsOrJ (cube.get "size") (.arr [.num 1, .num 1, .num 1])
  let sx := jnOf (size.idx 0)
  let sy := jnOf (size.idx 1)
  let sz := jnOf (size.idx 2)
  let center : Vec3 :=
    (jnAdd (jnOf (origin.idx 0)) (jnDiv sx (some 2)),
     jnAdd (jnOf (origin.idx 1)) (jnDiv sy (some 2)),
     jnAdd (jnOf (origin.idx 2)) (jnDiv sz (some 2)))
  let pivotV := cube.get "pivot"
  let rotV := cube.get "rotation"
  let placement :=
    if jsTruthy pivotV || jsTruthy rotV then
      let cPivot := jsOrJ pivotV (.arr [.num 0, .num 0, .num 0])
      let px := jnOf (cPivot.idx 0)
      let py := jnOf (cPivot.idx 1)
      let pz := jnOf (cPivot.idx 2)
      let rot :=
        match rotV with
        | some r =>
          if r.truthy then
            { x := degToRad (jsNumOrZero (r.idx 0))
              y := degToRad (jsNumOrZero (r.idx 1))
              z := degToRad (jsNumOrZero (r.idx 2))
              order := "XYZ" }
          else eulerZero
        | none => eulerZero
      Placement.grouped (px, py, pz) rot
        (jnSub center.1 px, jnSub center.2.1 py, jnSub center.2.2 pz)
    else Placement.direct center
  { size := (sx, sy, sz), center := center, placement := placement }

/-- One iteration of the cube loop: `cube.origin` (line 144) throws iff the
element is `null`. -/
def processCube (cube : Json) : Except String BoxDescriptor :=
  match cube with
  | .null => .error "TypeError: cannot read properties of null"
  | c => .ok (buildCube c)

/-- Loop `for (const cube of b.cubes)`: process the cubes of one bone in order. -/
def processCubes : List Json → Except String (List BoxDescriptor)
  | [] => .ok []
  | c :: rest => do
    let d ← processCube c
    let ds ← processCubes rest
    pure (d :: ds)

/-- Lines 139–167: traverse the bone map in insertion order, skipping bones
with a falsy `cubes` field. -/
def cubesOfBones : List (JsVal × Json) → Except String (List BoxDescriptor)
  | [] => .ok []
  | entry :: rest =>
    match entry.2.get "cubes" with
    | some cubesV =>
      if cubesV.truthy then do
        let cubes ← jsIterate cubesV
        let ds ← processCubes cubes
        let later ← cubesOfBones rest
        pure (ds ++ later)
      else cubesOfBones rest
    | none => cubesOfBones rest

/-- The geometry-interpreting part of `loadModel` of `src/app.js`
(lines 107–167); identical to the other build except that the cube loop does
not map UVs (the resolved texture dimensions are computed but unused by the
loop). -/
def interpret (geoJson : Json) : Except String (List BoxDescriptor) := do
  let setup ← modelSetup geoJson
  cubesOfBones setup.2.2

/-- Lines 173–205: bounding-box normalization and camera framing, textually
identical to the other build's lines 231–263. -/
def normalizeAndFrame (box : Box3) : Option FrameResult :=
  if box.isEmpty then none
  else
    let sizeX := box.maxX - box.minX
    let sizeY := box.maxY - box.minY
    let sizeZ := box.maxZ - box.minZ
    let cX := (box.minX + box.maxX) / 2
    let cY := (box.minY + box.maxY) / 2
    let cZ := (box.minZ + box.maxZ) / 2
    let maxDim := max sizeX (max sizeY sizeZ)
    let scale := if maxDim > 0 then 60 / maxDim else 1
    let dist := 2 * max sizeX (max sizeY sizeZ)
    some { translation := (0 - cX, 0 - cY, 0 - cZ)
           scale := scale
           target := (0, 0, 0)
           dist := dist
           cameraPos := (dist * 0.8, dist * 0.6, dist * 1.2)
           near := 0.1
           far := dist * 10 + 100 }

end Plain

/-- Forget the texture coordinates of a descriptor of the UV-mapping build,
leaving the data the `src/app.js` build computes. -/
def eraseUV (d : MV.BoxDescriptor) : Plain.BoxDescriptor :=
  { size := d.size, center := d.center, placement := d.placement }

/-! ## Helper lemmas -/

/-- The expression `r[i] || 0` coerces a numeric component to itself (0 is falsy but is
replaced by the same 0). -/
lemma jsNumOrZero_num (q : ℚ) : jsNumOrZero (some (.num q)) = some q := by
  by_cases h : q = 0 <;> simp [jsNumOrZero, jsTruthy, Json.truthy, jnOf, Json.toNum, h]

/-- Folding the lookup step from any accumulator: a key bound in the suffix
wins, otherwise the accumulator survives. -/
lemma jlookup_foldl (k : String) (l : List (String × Json)) (a : Option Json) :
    l.foldl (fun acc p => if p.1 = k then some p.2 else acc) a =
      (jlookup l k).elim a some := by
  induction l generalizing a with
  | nil => simp [jlookup]
  | cons p l ih =>
    show l.foldl _ (if p.1 = k then some p.2 else a) = _
    rw [ih]
    have hl : jlookup (p :: l) k =
        (jlookup l k).elim (if p.1 = k then some p.2 else none) some := by
      show l.foldl _ (if p.1 = k then some p.2 else none) = _
      rw [ih]
    rw [hl]
    cases jlookup l k with
    | none => by_cases hp : p.1 = k <;> simp [hp]
    | some v => simp

lemma jlookup_cons (p : String × Json) (l : List (String × Json)) (k : String) :
    jlookup (p :: l) k = (jlookup l k).elim (if p.1 = k then some p.2 else none) some := by
  show l.foldl _ (if p.1 = k then some p.2 else none) = _
  rw [jlookup_foldl]

/-- Appending one binding: it wins exactly on its own key. -/
lemma jlookup_append_single (fs : List (String × Json)) (a : String) (b : Json) (k : String) :
    jlookup (fs ++ [(a, b)]) k = if a = k then some b else jlookup fs k := by
  unfold jlookup
  rw [List.foldl_append]
  simp only [List.foldl_cons, List.foldl_nil]

/-- Appending two bindings with other keys does not change a lookup. -/
lemma get_obj_append_two (fs : List (String × Json)) (a₁ a₂ k : String) (b₁ b₂ : Json)
    (h₁ : a₁ ≠ k) (h₂ : a₂ ≠ k) :
    (Json.obj (fs ++ [(a₁, b₁), (a₂, b₂)])).get k = (Json.obj fs).get k := by
  have hsplit : fs ++ [(a₁, b₁), (a₂, b₂)] = (fs ++ [(a₁, b₁)]) ++ [(a₂, b₂)] := by
    simp
  show jlookup (fs ++ [(a₁, b₁), (a₂, b₂)]) k = jlookup fs k
  rw [hsplit, jlookup_append_single, jlookup_append_single, if_neg h₂, if_neg h₁]

/-- Appending two bindings makes each of them the looked-up value of its key. -/
lemma get_obj_append_two_self (fs : List (String × Json)) (a₁ a₂ : String) (b₁ b₂ : Json)
    (hne : a₁ ≠ a₂) :
    (Json.obj (fs ++ [(a₁, b₁), (a₂, b₂)])).get a₁ = some b₁ ∧
      (Json.obj (fs ++ [(a₁, b₁), (a₂, b₂)])).get a₂ = some b₂ := by
  have hsplit : fs ++ [(a₁, b₁), (a₂, b₂)] = (fs ++ [(a₁, b₁)]) ++ [(a₂, b₂)] := by
    simp
  constructor
  · show jlookup (fs ++ [(a₁, b₁), (a₂, b₂)]) a₁ = some b₁
    rw [hsplit, jlookup_append_single, if_neg (Ne.symm hne), jlookup_append_single,
      if_pos rfl]
  · show jlookup (fs ++ [(a₁, b₁), (a₂, b₂)]) a₂ = some b₂
    rw [hsplit, jlookup_append_single, if_pos rfl]

/-- Removing a key leaves every other key's lookup unchanged. -/
lemma jlookup_removeField_ne (fs : List (String × Json)) (k k' : String) (h : k' ≠ k) :
    jlookup (removeField fs k) k' = jlookup fs k' := by
  induction fs with
  | nil => rfl
  | cons p fs ih =>
    by_cases hp : p.1 = k
    · have hdrop : removeField (p :: fs) k = removeField fs k := by
        simp [removeField, hp]
      have hp' : p.1 ≠ k' := by rw [hp]; exact fun hc => h hc.symm
      rw [hdrop, ih, jlookup_cons, if_neg hp']
      cases jlookup fs k' <;> simp
    · have hkeep : removeField (p :: fs) k = p :: removeField fs k := by
        simp [removeField, hp]
      rw [hkeep, jlookup_cons, jlookup_cons, ih]

/-- Removing a key removes its binding. -/
lemma jlookup_removeField_self (fs : List (String × Json)) (k : String) :
    jlookup (removeField fs k) k = none := by
  induction fs with
  | nil => rfl
  | cons p fs ih =>
    by_cases hp : p.1 = k
    · have hdrop : removeField (p :: fs) k = removeField fs k := by
        simp [removeField, hp]
      rw [hdrop, ih]
    · have hkeep : removeField (p :: fs) k = p :: removeField fs k := by
        simp [removeField, hp]
      rw [hkeep, jlookup_cons, ih, if_neg hp]
      simp

/-- The two cube-loop bodies agree on everything except the UV field. -/
lemma eraseUV_buildCube (texW texH : Json) (att : CubeUVs → Except String CubeUVs)
    (c : Json) : eraseUV (MV.buildCube texW texH att c) = Plain.buildCube c := rfl

/-- The two cube-loop iterations agree (same error on a `null` element, and
descriptors equal after forgetting UVs), for every UV write behavior. -/
lemma processCube_map_eraseUV (texW texH : Json) (att : CubeUVs → Except String CubeUVs)
    (c : Json) :
    (MV.processCubeWith texW texH att c).map eraseUV = Plain.processCube c := by
  cases c <;> rfl

/-- Computation rules for the `Except` monad used by the loop translations. -/
lemma except_bind_ok {ε α β : Type} (a : α) (f : α → Except ε β) :
    ((Except.ok a : Except ε α) >>= f) = f a := rfl

lemma except_bind_error {ε α β : Type} (e : ε) (f : α → Except ε β) :
    ((Except.error e : Except ε α) >>= f) = Except.error e := rfl

lemma except_map_ok' {ε α β : Type} (f : α → β) (a : α) :
    Except.map f (Except.ok a : Except ε α) = Except.ok (f a) := rfl

lemma except_map_error' {ε α β : Type} (f : α → β) (e : ε) :
    Except.map f (Except.error e : Except ε α) = Except.error e := rfl

/-- The two cube loops agree over a cube list, for every UV write behavior. -/
lemma processCubes_map_eraseUV (texW texH : Json) (att : CubeUVs → Except String CubeUVs)
    (cubes : List Json) :
    (MV.processCubes texW texH att cubes).map (List.map eraseUV) =
      Plain.processCubes cubes := by
  induction cubes with
  | nil => rfl
  | cons c rest ih =>
    have hc := processCube_map_eraseUV texW texH att c
    cases hmv : MV.processCubeWith texW texH att c with
    | error e =>
      rw [hmv, except_map_error'] at hc
      simp [MV.processCubes, Plain.processCubes, hmv, ← hc,
        except_bind_ok, except_bind_error, except_map_ok', except_map_error']
    | ok d =>
      rw [hmv, except_map_ok'] at hc
      cases hrest : MV.processCubes texW texH att rest with
      | error e =>
        rw [hrest, except_map_error'] at ih
        simp [MV.processCubes, Plain.processCubes, hmv, hrest, ← hc, ← ih,
          except_bind_ok, except_bind_error, except_map_ok', except_map_error']
      | ok ds =>
        rw [hrest, except_map_ok'] at ih
        simp [MV.processCubes, Plain.processCubes, hmv, hrest, ← hc, ← ih,
          except_bind_ok, except_bind_error, except_map_ok', except_map_error']

/-- The two bone traversals agree, for every UV write behavior. -/
lemma cubesOfBones_map_eraseUV (texW texH : Json) (att : CubeUVs → Except String CubeUVs)
    (bones : List (JsVal × Json)) :
    (MV.cubesOfBones texW texH att bones).map (List.map eraseUV) =
      Plain.cubesOfBones bones := by
  induction bones with
  | nil => rfl
  | cons entry rest ih =>
    cases hcv : entry.2.get "cubes" with
    | none => simpa [MV.cubesOfBones, Plain.cubesOfBones, hcv] using ih
    | some cubesV =>
      by_cases ht : cubesV.truthy
      · cases hit : jsIterate cubesV with
        | error e =>
          simp [MV.cubesOfBones, Plain.cubesOfBones, hcv, ht, hit,
            except_bind_ok, except_bind_error, except_map_ok', except_map_error']
        | ok cubes =>
          have hcs := processCubes_map_eraseUV texW texH att cubes
          cases hmv : MV.processCubes texW texH att cubes with
          | error e =>
            rw [hmv, except_map_error'] at hcs
            simp [MV.cubesOfBones, Plain.cubesOfBones, hcv, ht, hit, hmv, ← hcs,
              except_bind_ok, except_bind_error, except_map_ok', except_map_error']
          | ok ds =>
            rw [hmv, except_map_ok'] at hcs
            cases hrest : MV.cubesOfBones texW texH att rest with
            | error e =>
              rw [hrest, except_map_error'] at ih
              simp [MV.cubesOfBones, Plain.cubesOfBones, hcv, ht, hit, hmv, hrest, ← hcs, ← ih,
                except_bind_ok, except_bind_error, except_map_ok', except_map_error']
            | ok later =>
              rw [hrest, except_map_ok'] at ih
              simp [MV.cubesOfBones, Plain.cubesOfBones, hcv, ht, hit, hmv, hrest, ← hcs, ← ih,
                except_bind_ok, except_bind_error, except_map_ok', except_map_error']
      · simpa [MV.cubesOfBones, Plain.cubesOfBones, hcv, ht] using ih

/-- The two interpreters agree on every model input, for every UV write
behavior: same success or failure, and on success the same descriptor lists
after forgetting texture coordinates. -/
lemma interpretWith_map_eraseUV (att : CubeUVs → Except String CubeUVs) (g : Json) :
    (MV.interpretWith att g).map (List.map eraseUV) = Plain.interpret g := by
  cases hs : modelSetup g with
  | error e =>
    simp [MV.interpretWith, Plain.interpret, hs,
      except_bind_ok, except_bind_error, except_map_ok', except_map_error']
  | ok setup =>
    have := cubesOfBones_map_eraseUV setup.1 setup.2.1 att setup.2.2
    simpa [MV.interpretWith, Plain.interpret, hs,
      except_bind_ok, except_bind_error, except_map_ok', except_map_error'] using this

/-- Evaluation of the normalization block on a non-empty box. -/
lemma normalizeAndFrame_of_not_empty (box : Box3) (hne : box.isEmpty = false) :
    MV.normalizeAndFrame box = some
      { translation := (0 - (box.minX + box.maxX) / 2, 0 - (box.minY + box.maxY) / 2,
          0 - (box.minZ + box.maxZ) / 2)
        scale := if 0 < max (box.maxX - box.minX) (max (box.maxY - box.minY) (box.maxZ - box.minZ))
          then 60 / max (box.maxX - box.minX) (max (box.maxY - box.minY) (box.maxZ - box.minZ))
          else 1
        target := (0, 0, 0)
        dist := 2 * max (box.maxX - box.minX) (max (box.maxY - box.minY) (box.maxZ - box.minZ))
        cameraPos :=
          (2 * max (box.maxX - box.minX) (max (box.maxY - box.minY) (box.maxZ - box.minZ)) * 0.8,
           2 * max (box.maxX - box.minX) (max (box.maxY - box.minY) (box.maxZ - box.minZ)) * 0.6,
           2 * max (box.maxX - box.minX) (max (box.maxY - box.minY) (box.maxZ - box.minZ)) * 1.2)
        near := 0.1
        far := 2 * max (box.maxX - box.minX) (max (box.maxY - box.minY) (box.maxZ - box.minZ))
          * 10 + 100 } := by
  simp [MV.normalizeAndFrame, hne]

/-! ## Claim theorems -/

/-- C4: for every engine-computed bounding box, if the box is non-empty the
model root receives a translation equal to the negative of the box center and
a uniform scale of `60 / maxDimension` when the maximal dimension is positive
(1 when it is zero); if the box is empty, normalization and framing are
skipped entirely and the root is exposed with no transform (the `none`
result models the fallback branch that only adds the untouched root). -/
theorem bbox_normalization_translation_scale (box : Box3) :
    (box.isEmpty = false →
      ∃ fr, MV.normalizeAndFrame box = some fr ∧
        fr.translation =
          (-((box.minX + box.maxX) / 2), -((box.minY + box.maxY) / 2),
            -((box.minZ + box.maxZ) / 2)) ∧
        (0 < max (box.maxX - box.minX) (max (box.maxY - box.minY) (box.maxZ - box.minZ)) →
          fr.scale =
            60 / max (box.maxX - box.minX) (max (box.maxY - box.minY) (box.maxZ - box.minZ))) ∧
        (max (box.maxX - box.minX) (max (box.maxY - box.minY) (box.maxZ - box.minZ)) = 0 →
          fr.scale = 1)) ∧
    (box.isEmpty = true → MV.normalizeAndFrame box = none) := by
  constructor
  · intro hne
    refine ⟨_, normalizeAndFrame_of_not_empty box hne, ?_, ?_, ?_⟩
    · simp [zero_sub, neg_div]
    · intro hpos
      dsimp only
      rw [if_pos hpos]
    · intro hzero
      simp [hzero]
  · intro he
    simp [MV.normalizeAndFrame, he]

/-- C4 witness: the box spanning `[0,2]³` is normalized by translation
`(-1,-1,-1)` and scale `30`. -/
theorem bbox_normalization_translation_scale_witness :
    ∃ fr, MV.normalizeAndFrame ⟨0, 0, 0, 2, 2, 2⟩ = some fr ∧
      fr.translation = (-1, -1, -1) ∧ fr.scale = 30 := by
  obtain ⟨fr, hfr, htr, hsc, _⟩ :=
    (bbox_normalization_translation_scale ⟨0, 0, 0, 2, 2, 2⟩).1 (by decide)
  refine ⟨fr, hfr, ?_, ?_⟩
  · rw [htr]
    norm_num
  · rw [hsc (by norm_num)]
    norm_num

/-- C8: whenever the bounding box is non-empty, the camera distance is twice
the maximal pre-scale box dimension, the camera sits at
`(0.8·dist, 0.6·dist, 1.2·dist)`, the near plane is `0.1`, the far plane is
`10·dist + 100`, and the orbit target is reset to the origin. -/
theorem camera_framing_parameters (box : Box3) (hne : box.isEmpty = false) :
    ∃ fr, MV.normalizeAndFrame box = some fr ∧
      fr.dist =
        2 * max (box.maxX - box.minX) (max (box.maxY - box.minY) (box.maxZ - box.minZ)) ∧
      fr.cameraPos = (0.8 * fr.dist, 0.6 * fr.dist, 1.2 * fr.dist) ∧
      fr.near = 0.1 ∧
      fr.far = 10 * fr.dist + 100 ∧
      fr.target = (0, 0, 0) := by
  refine ⟨_, normalizeAndFrame_of_not_empty box hne, ?_, ?_, ?_, ?_, ?_⟩ <;>
    simp [mul_comm]

/-- C8 witness: for the box spanning `[0,2]³`, the camera distance is 4, the
camera sits at `(3.2, 2.4, 4.8)` and the far plane is 140. -/
theorem camera_framing_parameters_witness :
    ∃ fr, MV.normalizeAndFrame ⟨0, 0, 0, 2, 2, 2⟩ = some fr ∧
      fr.dist = 4 ∧ fr.cameraPos = (3.2, 2.4, 4.8) ∧ fr.far = 140 := by
  obtain ⟨fr, hfr, hd, hp, _, hfar, _⟩ :=
    camera_framing_parameters ⟨0, 0, 0, 2, 2, 2⟩ (by decide)
  have hd4 : fr.dist = 4 := by rw [hd]; norm_num
  refine ⟨fr, hfr, hd4, ?_, ?_⟩
  · rw [hp, hd4]
    norm_num
  · rw [hfar, hd4]
    norm_num

/-- C5 counterexample: a model whose `minecraft:geometry` field is the
malformed (non-array) value `"ab"` does NOT cause a load error: JavaScript
string indexing yields the character `"a"`, property reads on it yield
`undefined`, the bone list defaults to `[]`, and the load completes with zero
boxes.  This refutes the claim that every malformed `minecraft:geometry`
value is a fatal load error. -/
theorem string_geometry_loads_without_error :
    MV.interpret (.obj [("minecraft:geometry", .str "ab")]) = .ok [] := rfl

/-- C5 (amended): a model JSON whose `minecraft:geometry` field is missing,
`null`, a number, a boolean, or an empty array causes a fatal load error
surfaced to the caller (the interpreter rejects before any box descriptor is
produced — an `error` result carries no partial output).  (As stated the
claim also covered every other "malformed" value; a string, or an object
with a `"0"` property, is traversed by JS property access without error, see
the counterexample.) -/
theorem undereferenceable_geometry_is_fatal (fs : List (String × Json)) :
    (jlookup fs "minecraft:geometry" = none →
      ∃ e, MV.interpret (.obj fs) = .error e) ∧
    (jlookup fs "minecraft:geometry" = some .null →
      ∃ e, MV.interpret (.obj fs) = .error e) ∧
    (∀ q : ℚ, jlookup fs "minecraft:geometry" = some (.num q) →
      ∃ e, MV.interpret (.obj fs) = .error e) ∧
    (∀ b : Bool, jlookup fs "minecraft:geometry" = some (.bool b) →
      ∃ e, MV.interpret (.obj fs) = .error e) ∧
    (jlookup fs "minecraft:geometry" = some (.arr []) →
      ∃ e, MV.interpret (.obj fs) = .error e) := by
  refine ⟨fun h => ⟨"TypeError: cannot read properties of undefined", ?_⟩,
          fun h => ⟨"TypeError: cannot read properties of null", ?_⟩,
          fun q h => ⟨"TypeError: cannot read properties of undefined", ?_⟩,
          fun b h => ⟨"TypeError: cannot read properties of undefined", ?_⟩,
          fun h => ⟨"TypeError: cannot read properties of undefined", ?_⟩⟩ <;>
    simp [MV.interpret, MV.interpretWith, modelSetup, jsMemberE, Json.get, h, jsIndexE,
      except_bind_ok, except_bind_error]

/-- C5 witness: each of the five detected shapes of a bad `minecraft:geometry`
field on a concrete model. -/
theorem undereferenceable_geometry_is_fatal_witness :
    (∃ e, MV.interpret (.obj []) = .error e) ∧
    (∃ e, MV.interpret (.obj [("minecraft:geometry", .null)]) = .error e) ∧
    (∃ e, MV.interpret (.obj [("minecraft:geometry", .num 5)]) = .error e) ∧
    (∃ e, MV.interpret (.obj [("minecraft:geometry", .bool true)]) = .error e) ∧
    (∃ e, MV.interpret (.obj [("minecraft:geometry", .arr [])]) = .error e) :=
  ⟨(undereferenceable_geometry_is_fatal []).1 rfl,
   (undereferenceable_geometry_is_fatal _).2.1 rfl,
   (undereferenceable_geometry_is_fatal _).2.2.1 5 rfl,
   (undereferenceable_geometry_is_fatal _).2.2.2.1 true rfl,
   (undereferenceable_geometry_is_fatal _).2.2.2.2 rfl⟩

/-- C7: the mirror flag swaps the left and right vertices of each face quad —
flipping only the U components within the face's rectangle — leaves every V
component unchanged, and does so independently per face of the cube net. -/
theorem mirror_flips_only_U :
    (∀ (texW texH : Json) (ux uy uw uh : JNum),
      MV.setFaceUV texW texH ux uy uw uh true =
        { v11 := (MV.setFaceUV texW texH ux uy uw uh false).v01
          v01 := (MV.setFaceUV texW texH ux uy uw uh false).v11
          v00 := (MV.setFaceUV texW texH ux uy uw uh false).v10
          v10 := (MV.setFaceUV texW texH ux uy uw uh false).v00 } ∧
      (MV.setFaceUV texW texH ux uy uw uh true).v11.2 =
          (MV.setFaceUV texW texH ux uy uw uh false).v11.2 ∧
      (MV.setFaceUV texW texH ux uy uw uh true).v01.2 =
          (MV.setFaceUV texW texH ux uy uw uh false).v01.2 ∧
      (MV.setFaceUV texW texH ux uy uw uh true).v00.2 =
          (MV.setFaceUV texW texH ux uy uw uh false).v00.2 ∧
      (MV.setFaceUV texW texH ux uy uw uh true).v10.2 =
          (MV.setFaceUV texW texH ux uy uw uh false).v10.2) ∧
    (∀ (texW texH : Json) (u v w h d : JNum),
      MV.computeCubeUVs texW texH u v w h d true =
        { posX := { v11 := (MV.computeCubeUVs texW texH u v w h d false).posX.v01
                    v01 := (MV.computeCubeUVs texW texH u v w h d false).posX.v11
                    v00 := (MV.computeCubeUVs texW texH u v w h d false).posX.v10
                    v10 := (MV.computeCubeUVs texW texH u v w h d false).posX.v00 }
          negX := { v11 := (MV.computeCubeUVs texW texH u v w h d false).negX.v01
                    v01 := (MV.computeCubeUVs texW texH u v w h d false).negX.v11
                    v00 := (MV.computeCubeUVs texW texH u v w h d false).negX.v10
                    v10 := (MV.computeCubeUVs texW texH u v w h d false).negX.v00 }
          posY := { v11 := (MV.computeCubeUVs texW texH u v w h d false).posY.v01
                    v01 := (MV.computeCubeUVs texW texH u v w h d false).posY.v11
                    v00 := (MV.computeCubeUVs texW texH u v w h d false).posY.v10
                    v10 := (MV.computeCubeUVs texW texH u v w h d false).posY.v00 }
          negY := { v11 := (MV.computeCubeUVs texW texH u v w h d false).negY.v01
                    v01 := (MV.computeCubeUVs texW texH u v w h d false).negY.v11
                    v00 := (MV.computeCubeUVs texW texH u v w h d false).negY.v10
                    v10 := (MV.computeCubeUVs texW texH u v w h d false).negY.v00 }
          posZ := { v11 := (MV.computeCubeUVs texW texH u v w h d false).posZ.v01
                    v01 := (MV.computeCubeUVs texW texH u v w h d false).posZ.v11
                    v00 := (MV.computeCubeUVs texW texH u v w h d false).posZ.v10
                    v10 := (MV.computeCubeUVs texW texH u v w h d false).posZ.v00 }
          negZ := { v11 := (MV.computeCubeUVs texW texH u v w h d false).negZ.v01
                    v01 := (MV.computeCubeUVs texW texH u v w h d false).negZ.v11
                    v00 := (MV.computeCubeUVs texW texH u v w h d false).negZ.v10
                    v10 := (MV.computeCubeUVs texW texH u v w h d false).negZ.v00 } }) :=
  ⟨fun _ _ _ _ _ _ => ⟨rfl, rfl, rfl, rfl, rfl⟩, fun _ _ _ _ _ _ _ => rfl⟩

/-- C10: the two source copies are equivalent on everything except texture
coordinates.  First conjunct: on every model input, the UV-mapping build and
the plain build succeed or fail identically, and on success produce the same
descriptor list — same count, sizes, centers, pivot groups and rotations —
after forgetting the face UVs (so the engine-computed bounding box of the
realized primitives is also the same).  Second conjunct: the two
normalization-and-framing blocks are the same function, so translation,
scale and all camera framing parameters agree. -/
theorem two_builds_agree_except_uv :
    (∀ g : Json, (MV.interpret g).map (List.map eraseUV) = Plain.interpret g) ∧
      MV.normalizeAndFrame = Plain.normalizeAndFrame := by
  constructor
  · intro g
    exact interpretWith_map_eraseUV (fun q => .ok q) g
  · funext box
    rfl

/-- C1: for a cube with a 2-element `uv` vector `(u,v)`, numeric size
`(w,h,d)` and nonzero declared texture dimensions, the six face UV quads are
exactly the Bedrock cube-net rectangles (+X at `(u+d+w, v+d)` size `(d,h)`,
−X at `(u, v+d)` size `(d,h)`, +Y at `(u+d, v)` size `(w,d)`, −Y at
`(u+d+w, v)` size `(w,d)`, +Z at `(u+d, v+d)` size `(w,h)`, −Z at
`(u+d+w+d, v+d)` size `(w,h)`), with U texels divided by `texW` and a texel
row `y` of height `h2` mapped to the V range `[1-(y+h2)/texH, 1-y/texH]`;
in particular `uv=[0,0]`, `size=[1,1,1]`, texture 64×64, `mirror=false`
gives the +Z face U range `[1/64, 2/64]` and V range `[62/64, 63/64]`. -/
theorem uv_net_rectangles_correct
    (tw th : ℚ) (htw : tw ≠ 0) (hth : th ≠ 0)
    (fs : List (String × Json)) (u v w h d : ℚ)
    (huv : (Json.obj fs).get "uv" = some (.arr [.num u, .num v]))
    (hsz : (Json.obj fs).get "size" = some (.arr [.num w, .num h, .num d])) :
    ((MV.buildCube (.num tw) (.num th) (fun q => .ok q) (.obj fs)).faceUVs =
      some (MV.computeCubeUVs (.num tw) (.num th) (some u) (some v) (some w) (some h) (some d)
        (jsTruthy ((Json.obj fs).get "mirror")))) ∧
    (jsTruthy ((Json.obj fs).get "mirror") = false →
      (MV.buildCube (.num tw) (.num th) (fun q => .ok q) (.obj fs)).faceUVs = some
        { posX := { v11 := (some ((u + d + w + d) / tw), some (1 - (v + d) / th))
                    v01 := (some ((u + d + w) / tw), some (1 - (v + d) / th))
                    v00 := (some ((u + d + w) / tw), some (1 - (v + d + h) / th))
                    v10 := (some ((u + d + w + d) / tw), some (1 - (v + d + h) / th)) }
          negX := { v11 := (some ((u + d) / tw), some (1 - (v + d) / th))
                    v01 := (some (u / tw), some (1 - (v + d) / th))
                    v00 := (some (u / tw), some (1 - (v + d + h) / th))
                    v10 := (some ((u + d) / tw), some (1 - (v + d + h) / th)) }
          posY := { v11 := (some ((u + d + w) / tw), some (1 - v / th))
                    v01 := (some ((u + d) / tw), some (1 - v / th))
                    v00 := (some ((u + d) / tw), some (1 - (v + d) / th))
                    v10 := (some ((u + d + w) / tw), some (1 - (v + d) / th)) }
          negY := { v11 := (some ((u + d + w + w) / tw), some (1 - v / th))
                    v01 := (some ((u + d + w) / tw), some (1 - v / th))
                    v00 := (some ((u + d + w) / tw), some (1 - (v + d) / th))
                    v10 := (some ((u + d + w + w) / tw), some (1 - (v + d) / th)) }
          posZ := { v11 := (some ((u + d + w) / tw), some (1 - (v + d) / th))
                    v01 := (some ((u + d) / tw), some (1 - (v + d) / th))
                    v00 := (some ((u + d) / tw), some (1 - (v + d + h) / th))
                    v10 := (some ((u + d + w) / tw), some (1 - (v + d + h) / th)) }
          negZ := { v11 := (some ((u + d + w + d + w) / tw), some (1 - (v + d) / th))
                    v01 := (some ((u + d + w + d) / tw), some (1 - (v + d) / th))
                    v00 := (some ((u + d + w + d) / tw), some (1 - (v + d + h) / th))
                    v10 := (some ((u + d + w + d + w) / tw),
                      some (1 - (v + d + h) / th)) } }) ∧
    ((MV.computeCubeUVs (.num 64) (.num 64) (some 0) (some 0) (some 1) (some 1) (some 1)
        false).posZ =
      { v11 := (some (2 / 64), some (63 / 64)), v01 := (some (1 / 64), some (63 / 64)),
        v00 := (some (1 / 64), some (62 / 64)), v10 := (some (2 / 64), some (62 / 64)) }) := by
  have h1 : (MV.buildCube (.num tw) (.num th) (fun q => .ok q) (.obj fs)).faceUVs =
      some (MV.computeCubeUVs (.num tw) (.num th) (some u) (some v) (some w) (some h) (some d)
        (jsTruthy ((Json.obj fs).get "mirror"))) := by
    simp [MV.buildCube, huv, hsz, jsOrJ, Json.truthy, Json.idx, jnOf, Json.toNum]
  refine ⟨h1, fun hmir => ?_, ?_⟩
  · rw [h1, hmir]
    norm_num [MV.computeCubeUVs, MV.setFaceUV, jnAdd, jnSub, jnDiv, Json.toNum, htw, hth]
  · norm_num [MV.computeCubeUVs, MV.setFaceUV, jnAdd, jnSub, jnDiv, Json.toNum]

/-- C1 witness: the scenario-2 cube (`uv=[0,0]`, `size=[1,1,1]`, 64×64,
no mirror): its face UVs are the computed cube net, and the explicit quads
instantiated at these values. -/
theorem uv_net_rectangles_correct_witness :
    ((MV.buildCube (.num 64) (.num 64) (fun q => .ok q)
        (.obj [("uv", .arr [.num 0, .num 0]),
          ("size", .arr [.num 1, .num 1, .num 1])])).faceUVs =
      some (MV.computeCubeUVs (.num 64) (.num 64) (some 0) (some 0) (some 1) (some 1) (some 1)
        (jsTruthy ((Json.obj [("uv", .arr [.num 0, .num 0]),
          ("size", .arr [.num 1, .num 1, .num 1])]).get "mirror")))) ∧
    ((MV.buildCube (.num 64) (.num 64) (fun q => .ok q)
        (.obj [("uv", .arr [.num 0, .num 0]),
          ("size", .arr [.num 1, .num 1, .num 1])])).faceUVs = some
        { posX := { v11 := (some ((0 + 1 + 1 + 1) / 64), some (1 - (0 + 1) / 64))
                    v01 := (some ((0 + 1 + 1) / 64), some (1 - (0 + 1) / 64))
                    v00 := (some ((0 + 1 + 1) / 64), some (1 - (0 + 1 + 1) / 64))
                    v10 := (some ((0 + 1 + 1 + 1) / 64), some (1 - (0 + 1 + 1) / 64)) }
          negX := { v11 := (some ((0 + 1) / 64), some (1 - (0 + 1) / 64))
                    v01 := (some (0 / 64), some (1 - (0 + 1) / 64))
                    v00 := (some (0 / 64), some (1 - (0 + 1 + 1) / 64))
                    v10 := (some ((0 + 1) / 64), some (1 - (0 + 1 + 1) / 64)) }
          posY := { v11 := (some ((0 + 1 + 1) / 64), some (1 - 0 / 64))
                    v01 := (some ((0 + 1) / 64), some (1 - 0 / 64))
                    v00 := (some ((0 + 1) / 64), some (1 - (0 + 1) / 64))
                    v10 := (some ((0 + 1 + 1) / 64), some (1 - (0 + 1) / 64)) }
          negY := { v11 := (some ((0 + 1 + 1 + 1) / 64), some (1 - 0 / 64))
                    v01 := (some ((0 + 1 + 1) / 64), some (1 - 0 / 64))
                    v00 := (some ((0 + 1 + 1) / 64), some (1 - (0 + 1) / 64))
                    v10 := (some ((0 + 1 + 1 + 1) / 64), some (1 - (0 + 1) / 64)) }
          posZ := { v11 := (some ((0 + 1 + 1) / 64), some (1 - (0 + 1) / 64))
                    v01 := (some ((0 + 1) / 64), some (1 - (0 + 1) / 64))
                    v00 := (some ((0 + 1) / 64), some (1 - (0 + 1 + 1) / 64))
                    v10 := (some ((0 + 1 + 1) / 64), some (1 - (0 + 1 + 1) / 64)) }
          negZ := { v11 := (some ((0 + 1 + 1 + 1 + 1) / 64), some (1 - (0 + 1) / 64))
                    v01 := (some ((0 + 1 + 1 + 1) / 64), some (1 - (0 + 1) / 64))
                    v00 := (some ((0 + 1 + 1 + 1) / 64), some (1 - (0 + 1 + 1) / 64))
                    v10 := (some ((0 + 1 + 1 + 1 + 1) / 64),
                      some (1 - (0 + 1 + 1) / 64)) } }) :=
  ⟨(uv_net_rectangles_correct 64 64 (by norm_num) (by norm_num)
      [("uv", .arr [.num 0, .num 0]), ("size", .arr [.num 1, .num 1, .num 1])]
      0 0 1 1 1 rfl rfl).1,
   (uv_net_rectangles_correct 64 64 (by norm_num) (by norm_num)
      [("uv", .arr [.num 0, .num 0]), ("size", .arr [.num 1, .num 1, .num 1])]
      0 0 1 1 1 rfl rfl).2.1 rfl⟩

/-- C2: a cube's computed world center is `origin + size/2` on each axis,
with `origin` defaulting to `[0,0,0]` and `size` to `[1,1,1]` (the hypotheses
state the resolved values of the `|| default` expressions, so they cover both
the present and the absent field), and the center is unchanged under any
`pivot` and `rotation` values set on the cube. -/
theorem cube_center_origin_plus_half_size
    (texW texH : Json) (att : CubeUVs → Except String CubeUVs)
    (fs : List (String × Json)) (ox oy oz sx sy sz : ℚ)
    (ho : jsOrJ ((Json.obj fs).get "origin") (.arr [.num 0, .num 0, .num 0]) =
      .arr [.num ox, .num oy, .num oz])
    (hs : jsOrJ ((Json.obj fs).get "size") (.arr [.num 1, .num 1, .num 1]) =
      .arr [.num sx, .num sy, .num sz]) :
    (MV.buildCube texW texH att (.obj fs)).center =
      (some (ox + sx / 2), some (oy + sy / 2), some (oz + sz / 2)) ∧
    ∀ p r : Json,
      (MV.buildCube texW texH att (.obj (fs ++ [("pivot", p), ("rotation", r)]))).center =
        (some (ox + sx / 2), some (oy + sy / 2), some (oz + sz / 2)) := by
  have key : ∀ gs : List (String × Json),
      jsOrJ ((Json.obj gs).get "origin") (.arr [.num 0, .num 0, .num 0]) =
        .arr [.num ox, .num oy, .num oz] →
      jsOrJ ((Json.obj gs).get "size") (.arr [.num 1, .num 1, .num 1]) =
        .arr [.num sx, .num sy, .num sz] →
      (MV.buildCube texW texH att (.obj gs)).center =
        (some (ox + sx / 2), some (oy + sy / 2), some (oz + sz / 2)) := by
    intro gs hgo hgs
    simp [MV.buildCube, hgo, hgs, Json.idx, jnOf, Json.toNum, jnAdd, jnDiv]
  refine ⟨key fs ho hs, fun p r => key _ ?_ ?_⟩
  · rw [get_obj_append_two fs "pivot" "rotation" "origin" p r (by decide) (by decide)]
    exact ho
  · rw [get_obj_append_two fs "pivot" "rotation" "size" p r (by decide) (by decide)]
    exact hs

/-- C2 witness: a cube with `origin=[1,2,3]`, `size=[2,4,6]` has center
`(2,4,6)`, also after setting a pivot and a rotation on it; and an
all-defaults cube (no origin, no size) has center `(1/2, 1/2, 1/2)`. -/
theorem cube_center_origin_plus_half_size_witness :
    ((MV.buildCube (.num 64) (.num 64) (fun q => .ok q)
        (.obj [("origin", .arr [.num 1, .num 2, .num 3]),
          ("size", .arr [.num 2, .num 4, .num 6])])).center =
      (some (1 + 2 / 2), some (2 + 4 / 2), some (3 + 6 / 2))) ∧
    ((MV.buildCube (.num 64) (.num 64) (fun q => .ok q)
        (.obj ([("origin", .arr [.num 1, .num 2, .num 3]),
          ("size", .arr [.num 2, .num 4, .num 6])] ++
          [("pivot", .arr [.num 9, .num 9, .num 9]),
            ("rotation", .arr [.num 45, .num 0, .num 0])]))).center =
      (some (1 + 2 / 2), some (2 + 4 / 2), some (3 + 6 / 2))) ∧
    ((MV.buildCube (.num 64) (.num 64) (fun q => .ok q) (.obj [])).center =
      (some (0 + 1 / 2), some (0 + 1 / 2), some (0 + 1 / 2))) :=
  ⟨(cube_center_origin_plus_half_size (.num 64) (.num 64) (fun q => .ok q)
      [("origin", .arr [.num 1, .num 2, .num 3]), ("size", .arr [.num 2, .num 4, .num 6])]
      1 2 3 2 4 6 rfl rfl).1,
   (cube_center_origin_plus_half_size (.num 64) (.num 64) (fun q => .ok q)
      [("origin", .arr [.num 1, .num 2, .num 3]), ("size", .arr [.num 2, .num 4, .num 6])]
      1 2 3 2 4 6 rfl rfl).2 (.arr [.num 9, .num 9, .num 9]) (.arr [.num 45, .num 0, .num 0]),
   (cube_center_origin_plus_half_size (.num 64) (.num 64) (fun q => .ok q) []
      0 0 0 1 1 1 rfl rfl).1⟩

/-- C3: a cube with a pivot or a rotation is wrapped in a transform group at
the pivot (default `[0,0,0]`), the group's rotation is set from the rotation
vector converted degrees-to-radians per axis (an `XYZ`-order Euler, the
engine's intrinsic X-then-Y-then-Z composition; it stays at zero when only a
pivot is present), and the mesh's local position inside the group is
`center − pivot`; a cube with neither pivot nor rotation is placed directly
at its center with no wrapping group.  The last conjunct is end-to-end
scenario 3: `rotation=[0,90,0]`, `pivot=[1,1,1]`, `origin=[0,0,0]`,
`size=[2,2,2]` gives a group at `(1,1,1)` rotated `π/2` about Y with mesh
local offset `(0,0,0)`. -/
theorem cube_pivot_rotation_grouping
    (texW texH : Json) (att : CubeUVs → Except String CubeUVs)
    (fs : List (String × Json)) (px py pz rx ry rz : ℚ) :
    ((Json.obj fs).get "pivot" = some (.arr [.num px, .num py, .num pz]) →
      (Json.obj fs).get "rotation" = some (.arr [.num rx, .num ry, .num rz]) →
      (MV.buildCube texW texH att (.obj fs)).placement =
        .grouped (some px, some py, some pz)
          { x := degToRad (some rx), y := degToRad (some ry), z := degToRad (some rz)
            order := "XYZ" }
          (jnSub (MV.buildCube texW texH att (.obj fs)).center.1 (some px),
           jnSub (MV.buildCube texW texH att (.obj fs)).center.2.1 (some py),
           jnSub (MV.buildCube texW texH att (.obj fs)).center.2.2 (some pz))) ∧
    ((Json.obj fs).get "pivot" = some (.arr [.num px, .num py, .num pz]) →
      (Json.obj fs).get "rotation" = none →
      (MV.buildCube texW texH att (.obj fs)).placement =
        .grouped (some px, some py, some pz) eulerZero
          (jnSub (MV.buildCube texW texH att (.obj fs)).center.1 (some px),
           jnSub (MV.buildCube texW texH att (.obj fs)).center.2.1 (some py),
           jnSub (MV.buildCube texW texH att (.obj fs)).center.2.2 (some pz))) ∧
    ((Json.obj fs).get "pivot" = none →
      (Json.obj fs).get "rotation" = some (.arr [.num rx, .num ry, .num rz]) →
      (MV.buildCube texW texH att (.obj fs)).placement =
        .grouped (some 0, some 0, some 0)
          { x := degToRad (some rx), y := degToRad (some ry), z := degToRad (some rz)
            order := "XYZ" }
          (jnSub (MV.buildCube texW texH att (.obj fs)).center.1 (some 0),
           jnSub (MV.buildCube texW texH att (.obj fs)).center.2.1 (some 0),
           jnSub (MV.buildCube texW texH att (.obj fs)).center.2.2 (some 0))) ∧
    ((Json.obj fs).get "pivot" = none →
      (Json.obj fs).get "rotation" = none →
      (MV.buildCube texW texH att (.obj fs)).placement =
        .direct (MV.buildCube texW texH att (.obj fs)).center) ∧
    ((MV.buildCube texW texH att (.obj [("origin", .arr [.num 0, .num 0, .num 0]),
        ("size", .arr [.num 2, .num 2, .num 2]),
        ("pivot", .arr [.num 1, .num 1, .num 1]),
        ("rotation", .arr [.num 0, .num 90, .num 0])])).placement =
      .grouped (some 1, some 1, some 1)
        { x := ⟨some 0⟩, y := ⟨some (1 / 2)⟩, z := ⟨some 0⟩, order := "XYZ" }
        (some 0, some 0, some 0)) := by
  refine ⟨fun hp hr => ?_, fun hp hr => ?_, fun hp hr => ?_, fun hp hr => ?_, ?_⟩
  · simp [MV.buildCube, hp, hr, jsTruthy, Json.truthy, jsOrJ, Json.idx, jnOf, Json.toNum,
      jsNumOrZero_num]
  · simp [MV.buildCube, hp, hr, jsTruthy, Json.truthy, jsOrJ, Json.idx, jnOf, Json.toNum]
  · simp [MV.buildCube, hp, hr, jsTruthy, Json.truthy, jsOrJ, Json.idx, jnOf, Json.toNum,
      jsNumOrZero_num]
  · simp [MV.buildCube, hp, hr, jsTruthy]
  · with_unfolding_all rfl

/-- C3 witness: the four pivot/rotation configurations at concrete cubes, via
the theorem: pivot+rotation, pivot only, rotation only, neither. -/
theorem cube_pivot_rotation_grouping_witness :
    ((MV.buildCube (.num 64) (.num 64) (fun q => .ok q)
        (.obj [("pivot", .arr [.num 1, .num 2, .num 3]),
          ("rotation", .arr [.num 30, .num 60, .num 90])])).placement =
      .grouped (some 1, some 2, some 3)
        { x := degToRad (some 30), y := degToRad (some 60), z := degToRad (some 90)
          order := "XYZ" }
        (jnSub (MV.buildCube (.num 64) (.num 64) (fun q => .ok q)
            (.obj [("pivot", .arr [.num 1, .num 2, .num 3]),
              ("rotation", .arr [.num 30, .num 60, .num 90])])).center.1 (some 1),
         jnSub (MV.buildCube (.num 64) (.num 64) (fun q => .ok q)
            (.obj [("pivot", .arr [.num 1, .num 2, .num 3]),
              ("rotation", .arr [.num 30, .num 60, .num 90])])).center.2.1 (some 2),
         jnSub (MV.buildCube (.num 64) (.num 64) (fun q => .ok q)
            (.obj [("pivot", .arr [.num 1, .num 2, .num 3]),
              ("rotation", .arr [.num 30, .num 60, .num 90])])).center.2.2 (some 3))) ∧
    ((MV.buildCube (.num 64) (.num 64) (fun q => .ok q)
        (.obj [("pivot", .arr [.num 1, .num 2, .num 3])])).placement =
      .grouped (some 1, some 2, some 3) eulerZero
        (jnSub (MV.buildCube (.num 64) (.num 64) (fun q => .ok q)
            (.obj [("pivot", .arr [.num 1, .num 2, .num 3])])).center.1 (some 1),
         jnSub (MV.buildCube (.num 64) (.num 64) (fun q => .ok q)
            (.obj [("pivot", .arr [.num 1, .num 2, .num 3])])).center.2.1 (some 2),
         jnSub (MV.buildCube (.num 64) (.num 64) (fun q => .ok q)
            (.obj [("pivot", .arr [.num 1, .num 2, .num 3])])).center.2.2 (some 3))) ∧
    ((MV.buildCube (.num 64) (.num 64) (fun q => .ok q)
        (.obj [("rotation", .arr [.num 30, .num 60, .num 90])])).placement =
      .grouped (some 0, some 0, some 0)
        { x := degToRad (some 30), y := degToRad (some 60), z := degToRad (some 90)
          order := "XYZ" }
        (jnSub (MV.buildCube (.num 64) (.num 64) (fun q => .ok q)
            (.obj [("rotation", .arr [.num 30, .num 60, .num 90])])).center.1 (some 0),
         jnSub (MV.buildCube (.num 64) (.num 64) (fun q => .ok q)
            (.obj [("rotation", .arr [.num 30, .num 60, .num 90])])).center.2.1 (some 0),
         jnSub (MV.buildCube (.num 64) (.num 64) (fun q => .ok q)
            (.obj [("rotation", .arr [.num 30, .num 60, .num 90])])).center.2.2 (some 0))) ∧
    ((MV.buildCube (.num 64) (.num 64) (fun q => .ok q) (.obj [])).placement =
      .direct (MV.buildCube (.num 64) (.num 64) (fun q => .ok q) (.obj [])).center) :=
  ⟨(cube_pivot_rotation_grouping (.num 64) (.num 64) (fun q => .ok q)
      [("pivot", .arr [.num 1, .num 2, .num 3]),
        ("rotation", .arr [.num 30, .num 60, .num 90])] 1 2 3 30 60 90).1 rfl rfl,
   (cube_pivot_rotation_grouping (.num 64) (.num 64) (fun q => .ok q)
      [("pivot", .arr [.num 1, .num 2, .num 3])] 1 2 3 0 0 0).2.1 rfl rfl,
   (cube_pivot_rotation_grouping (.num 64) (.num 64) (fun q => .ok q)
      [("rotation", .arr [.num 30, .num 60, .num 90])] 0 0 0 30 60 90).2.2.1 rfl rfl,
   (cube_pivot_rotation_grouping (.num 64) (.num 64) (fun q => .ok q)
      [] 0 0 0 0 0 0).2.2.2.1 rfl rfl⟩

/-- C6: a failure of the engine-side UV write (the only thing the
`try`/`catch` around the six `setFaceUV` calls can catch) is recovered
locally: the failing cube keeps the default (unmapped) UVs; the cube's
processing — success or failure, size, center and placement — is identical
under any two write behaviors; and the whole load's success and every non-UV
output are independent of the write behavior, so processing continues with
the remaining cubes. -/
theorem uv_failure_caught_locally (texW texH : Json) :
    (∀ (e : String) (fs : List (String × Json)) (l : List Json),
      (Json.obj fs).get "uv" = some (.arr l) → l.length = 2 →
      (MV.buildCube texW texH (fun _ => .error e) (.obj fs)).faceUVs = none) ∧
    (∀ (att₁ att₂ : CubeUVs → Except String CubeUVs) (c : Json),
      (MV.processCubeWith texW texH att₁ c).map eraseUV =
        (MV.processCubeWith texW texH att₂ c).map eraseUV) ∧
    (∀ (att : CubeUVs → Except String CubeUVs) (g : Json),
      (MV.interpretWith att g).map (List.map eraseUV) =
        (MV.interpret g).map (List.map eraseUV)) := by
  refine ⟨?_, ?_, ?_⟩
  · intro e fs l huv hlen
    simp [MV.buildCube, huv, hlen]
  · intro att₁ att₂ c
    rw [processCube_map_eraseUV, processCube_map_eraseUV]
  · intro att g
    rw [interpretWith_map_eraseUV]
    exact (interpretWith_map_eraseUV (fun q => .ok q) g).symm

/-- C6 witness: a cube whose UV write fails with `"boom"` falls back to the
default (unmapped) UVs. -/
theorem uv_failure_caught_locally_witness :
    (MV.buildCube (.num 64) (.num 64) (fun _ => .error "boom")
      (.obj [("uv", .arr [.num 0, .num 0])])).faceUVs = none :=
  (uv_failure_caught_locally (.num 64) (.num 64)).1 "boom"
    [("uv", .arr [.num 0, .num 0])] [.num 0, .num 0] rfl rfl

/-- C9: a cube whose `uv` field is present but is not a 2-element array gets
the default (unmapped) UVs silently: the cube's processing raises no error,
no face UVs are set, and the cube's descriptor equals that of the same cube
with the `uv` field absent (same size, center and placement). -/
theorem malformed_uv_defaults_silently
    (texW texH : Json) (fs : List (String × Json)) (u : Json)
    (hu : (Json.obj fs).get "uv" = some u)
    (h2 : ∀ l : List Json, u = .arr l → l.length ≠ 2) :
    MV.processCube texW texH (.obj fs) =
      .ok (MV.buildCube texW texH (fun q => .ok q) (.obj fs)) ∧
    (MV.buildCube texW texH (fun q => .ok q) (.obj fs)).faceUVs = none ∧
    MV.buildCube texW texH (fun q => .ok q) (.obj fs) =
      MV.buildCube texW texH (fun q => .ok q) (.obj (removeField fs "uv")) := by
  have horig : (Json.obj (removeField fs "uv")).get "origin" = (Json.obj fs).get "origin" :=
    jlookup_removeField_ne fs "uv" "origin" (by decide)
  have hsizeL : (Json.obj (removeField fs "uv")).get "size" = (Json.obj fs).get "size" :=
    jlookup_removeField_ne fs "uv" "size" (by decide)
  have hpivL : (Json.obj (removeField fs "uv")).get "pivot" = (Json.obj fs).get "pivot" :=
    jlookup_removeField_ne fs "uv" "pivot" (by decide)
  have hrotL : (Json.obj (removeField fs "uv")).get "rotation" =
      (Json.obj fs).get "rotation" :=
    jlookup_removeField_ne fs "uv" "rotation" (by decide)
  have huvNone : (Json.obj (removeField fs "uv")).get "uv" = none :=
    jlookup_removeField_self fs "uv"
  refine ⟨rfl, ?_, ?_⟩
  · cases u with
    | arr l => simp [MV.buildCube, hu, h2 l rfl]
    | null => simp [MV.buildCube, hu]
    | bool b => simp [MV.buildCube, hu]
    | num q => simp [MV.buildCube, hu]
    | str s => simp [MV.buildCube, hu]
    | obj o => simp [MV.buildCube, hu]
  · cases u with
    | arr l => simp [MV.buildCube, hu, h2 l rfl, horig, hsizeL, hpivL, hrotL, huvNone]
    | null => simp [MV.buildCube, hu, horig, hsizeL, hpivL, hrotL, huvNone]
    | bool b => simp [MV.buildCube, hu, horig, hsizeL, hpivL, hrotL, huvNone]
    | num q => simp [MV.buildCube, hu, horig, hsizeL, hpivL, hrotL, huvNone]
    | str s => simp [MV.buildCube, hu, horig, hsizeL, hpivL, hrotL, huvNone]
    | obj o => simp [MV.buildCube, hu, horig, hsizeL, hpivL, hrotL, huvNone]

/-- C9 witness: a cube with `uv = 3` (a number), a 3-element `uv` array, and
a `null` `uv`, each processed without error, with default UVs, and placed
like its uv-less counterpart. -/
theorem malformed_uv_defaults_silently_witness :
    (MV.processCube (.num 64) (.num 64)
        (.obj [("uv", .num 3), ("origin", .arr [.num 1, .num 1, .num 1])]) =
      .ok (MV.buildCube (.num 64) (.num 64) (fun q => .ok q)
        (.obj [("uv", .num 3), ("origin", .arr [.num 1, .num 1, .num 1])])) ∧
    (MV.buildCube (.num 64) (.num 64) (fun q => .ok q)
        (.obj [("uv", .num 3), ("origin", .arr [.num 1, .num 1, .num 1])])).faceUVs =
      none ∧
    MV.buildCube (.num 64) (.num 64) (fun q => .ok q)
        (.obj [("uv", .num 3), ("origin", .arr [.num 1, .num 1, .num 1])]) =
      MV.buildCube (.num 64) (.num 64) (fun q => .ok q)
        (.obj (removeField [("uv", .num 3), ("origin", .arr [.num 1, .num 1, .num 1])]
          "uv"))) ∧
    (MV.buildCube (.num 64) (.num 64) (fun q => .ok q)
        (.obj [("uv", .arr [.num 0, .num 0, .num 0])])).faceUVs = none ∧
    (MV.buildCube (.num 64) (.num 64) (fun q => .ok q)
        (.obj [("uv", .null)])).faceUVs = none :=
  ⟨malformed_uv_defaults_silently (.num 64) (.num 64)
      [("uv", .num 3), ("origin", .arr [.num 1, .num 1, .num 1])] (.num 3) rfl
      (fun l hl => Json.noConfusion hl),
   (malformed_uv_defaults_silently (.num 64) (.num 64)
      [("uv", .arr [.num 0, .num 0, .num 0])] (.arr [.num 0, .num 0, .num 0]) rfl
      (fun l hl => by cases hl; decide)).2.1,
   (malformed_uv_defaults_silently (.num 64) (.num 64)
      [("uv", .null)] .null rfl (fun l hl => Json.noConfusion hl)).2.1⟩
